import Mathlib

/-!
Shallow embedding of the session, token-lifecycle and cache subsystem of the
mainnode todo service.

Sources embedded here:
  * src/src/middleware/security.js   (authenticateToken, createRateLimit)
  * src/src/config/redis.js          (RedisManager get/set/del/exists/deletePattern)
  * src/unnamed/part_004             (User model: recordLoginAttempt, isLocked,
                                      generateJWT, findByEmail, findById, updatePassword;
                                      Todo model: update, invalidateUserCache)
  * src/README.md lines 486-1179     (AuthController: register, login, logout,
                                      changePassword, requestPasswordReset, refreshToken)

Modelling conventions:
  * Time is a Nat counting seconds (the JavaScript code mixes millisecond Date
    values and second-granularity JWT timestamps; all durations are normalised
    to seconds here, e.g. the 30*60*1000 ms lockout becomes 1800 s).
  * Redis keys are strings of the form "prefix:uuid[:suffix]" in the source.
    User ids are UUIDs of fixed textual shape, so the string patterns used by
    distinct users or distinct key families never overlap; keys are therefore
    modelled structurally as an inductive type, and glob patterns as a small
    pattern type whose match relation mirrors the string glob on those keys.
  * bcrypt is external; it is modelled as an injective tagging function whose
    compare is equality with the recomputed tag, which preserves exactly the
    property the code relies on (compare(p, hash(q)) succeeds iff p = q).
  * A JWT is modelled as its decoded claims plus a flag recording whether it
    was signed with the process secret; jwt.verify checks that flag and then
    the expiry, jwt.decode reads the claims without checking anything.
  * Every modelled operation threads a state `St` holding the Redis contents
    and an ordered trace of the cache/database effects it performed, so that
    ordering properties (revocation before/after issue, invalidation after the
    durable write) are stated on the trace.
-/

namespace Mainnode

/-- Lowercasing used for email normalisation (`email.toLowerCase()` in the
source); defined over the character list so that it evaluates by `decide`. -/
def lowerStr (s : String) : String := ⟨s.data.map Char.toLower⟩

/-- Decoded JWT claims as produced by `User.generateJWT` (part_004 lines
852-868): user id, identity fields, active/verified snapshot, issued-at and
expiry timestamps.  `sig` records whether the token was signed with the
process JWT secret (true for every token the service itself issues). -/
structure Token where
  userId : Nat
  email : String
  username : String
  isActive : Bool
  emailVerified : Bool
  iat : Nat
  exp : Nat
  sig : Bool
deriving DecidableEq, Repr

/-- Failure modes of `jwt.verify`. -/
inductive JwtError where
  | invalid
  | expired
deriving DecidableEq, Repr

/-- Model of `jwt.verify(token, secret)`: signature is checked first
(JsonWebTokenError), then the embedded expiry (TokenExpiredError); a token is
expired once `now` reaches `exp`. -/
def jwtVerify (t : Token) (now : Nat) : Except JwtError Token :=
  if t.sig = false then .error .invalid
  else if t.exp ≤ now then .error .expired
  else .ok t

/-- The Redis keys used by the embedded code, modelled structurally (see the
header comment: distinct UUID ids never produce overlapping key strings).
Constructors correspond to the string templates
"session:{id}", "user_session:{id}", "blacklist:{token}", "user:{id}",
"registration:{ip}", "login_attempts:{ip}", "password_reset:{ip}",
"todos:{id}:{query}", "user_categories:{id}", "user_tags:{id}",
"overdue_todos:{id}", "upcoming_todos:{id}:{query}", "user_stats:{id}". -/
inductive CacheKey where
  | session (userId : Nat)
  | userSession (userId : Nat)
  | blacklist (tok : Token)
  | user (userId : Nat)
  | registration (ip : String)
  | loginAttempts (ip : String)
  | passwordReset (ip : String)
  | todos (userId : Nat) (query : String)
  | userCategories (userId : Nat)
  | userTags (userId : Nat)
  | overdueTodos (userId : Nat)
  | upcomingTodos (userId : Nat) (query : String)
  | userStats (userId : Nat)
deriving DecidableEq, Repr

/-- Durable account record, one row of the `users` table (part_004 class
User; snake_case columns mapped to the constructor's camelCase fields). -/
structure User where
  id : Nat
  email : String
  username : String
  passwordHash : String
  isActive : Bool
  emailVerified : Bool
  failedLoginAttempts : Nat
  lockedUntil : Option Nat
  lastLoginAt : Option Nat
  lastLoginIp : Option String
  passwordResetToken : Option String
  passwordResetExpires : Option Nat
deriving DecidableEq, Repr

/-- Values stored in Redis by the embedded code: JSON numbers (rate-limit
counters), booleans (blacklist markers), issued tokens (session records),
cached account rows (`user:{id}`), and opaque JSON payloads (derived caches,
user_session info). -/
inductive CacheVal where
  | num (n : Nat)
  | flag (b : Bool)
  | tok (t : Token)
  | acct (u : User)
  | payload (s : String)
deriving DecidableEq, Repr

/-- One live Redis entry: key, value and the absolute expiry instant
(`setEx key ttl value` stores a deadline of now + ttl). -/
structure Entry where
  key : CacheKey
  val : CacheVal
  deadline : Nat
deriving DecidableEq, Repr

/-- The external key-value store: a connectivity flag (RedisManager's
`isConnected`) and the live entries. -/
structure Redis where
  conn : Bool
  entries : List Entry
deriving DecidableEq, Repr

/-- Raw lookup of a key's live value: the stored entry if present and not yet
past its deadline. -/
def Redis.lookup (r : Redis) (k : CacheKey) (now : Nat) : Option CacheVal :=
  match r.entries.find? (fun e => e.key == k) with
  | some e => if now < e.deadline then some e.val else none
  | none => none

/-- RedisManager.get (redis.js lines 109-128): returns null (a miss) when the
store is not connected, otherwise the live value. -/
def Redis.rget (r : Redis) (k : CacheKey) (now : Nat) : Option CacheVal :=
  if r.conn then r.lookup k now else none

/-- RedisManager.set / setEx (redis.js lines 130-145): inserts the value with
deadline now + ttl, replacing any previous entry for the key; reports false
without writing when not connected. -/
def Redis.rset (r : Redis) (k : CacheKey) (v : CacheVal) (ttl : Nat) (now : Nat) :
    Redis × Bool :=
  if r.conn then
    ({ r with entries := ⟨k, v, now + ttl⟩ :: r.entries.filter (fun e => !(e.key == k)) }, true)
  else (r, false)

/-- RedisManager.del (redis.js lines 147-161). -/
def Redis.rdel (r : Redis) (k : CacheKey) : Redis × Bool :=
  if r.conn then
    ({ r with entries := r.entries.filter (fun e => !(e.key == k)) },
      r.entries.any (fun e => e.key == k))
  else (r, false)

/-- RedisManager.exists (redis.js lines 163-175): false when not connected. -/
def Redis.rexists (r : Redis) (k : CacheKey) (now : Nat) : Bool :=
  r.conn && (r.lookup k now).isSome

/-- Glob patterns passed to RedisManager.deletePattern by the embedded code:
either a literal key (no '*') or one of the two wildcard families
"todos:{id}:*" and "upcoming_todos:{id}:*". -/
inductive Pat where
  | exact (k : CacheKey)
  | todosAll (userId : Nat)
  | upcomingAll (userId : Nat)
deriving DecidableEq, Repr

/-- Which keys a pattern matches (the string glob, transported to the
structural keys). -/
def Pat.matches : Pat → CacheKey → Bool
  | .exact k, k' => k == k'
  | .todosAll u, .todos u' _ => u == u'
  | .todosAll _, _ => false
  | .upcomingAll u, .upcomingTodos u' _ => u == u'
  | .upcomingAll _, _ => false

/-- RedisManager.deletePattern (redis.js lines 208-229): deletes every key
matching the pattern; does nothing when not connected. -/
def Redis.delPattern (r : Redis) (p : Pat) : Redis :=
  if r.conn then { r with entries := r.entries.filter (fun e => !(p.matches e.key)) }
  else r

/-- Observable effects of a modelled request, in execution order: a durable
write to the relational store, or a Redis set / del / deletePattern call. -/
inductive Ev where
  | dbWrite
  | cset (k : CacheKey) (v : CacheVal) (ttl : Nat)
  | cdel (k : CacheKey)
  | cdelPat (p : Pat)
deriving DecidableEq, Repr

/-- Request-processing state: the Redis contents plus the ordered trace of
effects performed so far. -/
structure St where
  redis : Redis
  trace : List Ev
deriving DecidableEq, Repr

/-- Perform a Redis set, recording the effect. -/
def St.set (s : St) (k : CacheKey) (v : CacheVal) (ttl : Nat) (now : Nat) : St :=
  { redis := (s.redis.rset k v ttl now).1, trace := s.trace ++ [.cset k v ttl] }

/-- Perform a Redis del, recording the effect. -/
def St.del (s : St) (k : CacheKey) : St :=
  { redis := (s.redis.rdel k).1, trace := s.trace ++ [.cdel k] }

/-- Perform a Redis deletePattern, recording the effect. -/
def St.delPat (s : St) (p : Pat) : St :=
  { redis := s.redis.delPattern p, trace := s.trace ++ [.cdelPat p] }

/-- Record a durable write to the relational store. -/
def St.write (s : St) : St :=
  { s with trace := s.trace ++ [.dbWrite] }

/-- Read a numeric counter from Redis, as `await redisManager.get(key)` does
for the rate-limit keys (the stored JSON value is always a number there). -/
def getNat (r : Redis) (k : CacheKey) (now : Nat) : Option Nat :=
  match r.rget k now with
  | some (.num n) => some n
  | _ => none

/-- Model of `bcrypt.hash` (external library): an injective tag of the
password.  Only the round-trip property compare(p, hash(q)) = (p = q) is
relied on by the embedded code. -/
def bcryptHash (password : String) : String := "bcrypt$" ++ password

/-- Model of `bcrypt.compare(password, hash)`. -/
def bcryptCompare (password hash : String) : Bool := hash == bcryptHash password

/-- User.validatePassword (part_004 lines 843-850 and 953-955). -/
def User.validatePassword (u : User) (password : String) : Bool :=
  bcryptCompare password u.passwordHash

/-- User.isLocked (part_004 lines 1057-1059): locked while `locked_until` is
set and still in the future. -/
def User.isLocked (u : User) (now : Nat) : Bool :=
  match u.lockedUntil with
  | some t => now < t
  | none => false

/-- User.recordLoginAttempt (part_004 lines 1012-1055), as it acts on the
durable row: a success zeroes the failed-attempt counter, clears the lock and
records the login time and address; a failure bumps the counter and, once it
reaches 5, sets the lock to now + 30 minutes (1800 s). -/
def User.recordLoginAttempt (u : User) (success : Bool) (ip : String) (now : Nat) :
    User :=
  if success then
    { u with lastLoginAt := some now, lastLoginIp := some ip,
             failedLoginAttempts := 0, lockedUntil := none }
  else
    let n := u.failedLoginAttempts + 1
    { u with lastLoginIp := some ip, failedLoginAttempts := n,
             lockedUntil := if 5 ≤ n then some (now + 30 * 60) else u.lockedUntil }

/-- User.generateJWT (part_004 lines 852-868): payload carries id, email,
username and the active/verified snapshot; expiry is `JWT_EXPIRES_IN` seconds
from issuance (default 7 days); the token is signed with the process secret. -/
def User.generateJWT (u : User) (jwtExpiresIn : Nat) (now : Nat) : Token :=
  { userId := u.id, email := u.email, username := u.username,
    isActive := u.isActive, emailVerified := u.emailVerified,
    iat := now, exp := now + jwtExpiresIn, sig := true }

/-- The `users` table. -/
abbrev Db := List User

/-- User.findByEmail (part_004 lines 766-777): lookup by lowercased email
(rows store emails already lowercased by User.create). -/
def User.findByEmail (db : Db) (email : String) : Option User :=
  List.find? (fun u => u.email == lowerStr email) db

/-- User.findById (part_004 lines 742-764): try the `user:{id}` cache first;
on a miss read the table and cache the row for 30 minutes. -/
def User.findById (db : Db) (st : St) (id : Nat) (now : Nat) : Option User × St :=
  match st.redis.rget (.user id) now with
  | some (.acct u) => (some u, st)
  | _ =>
    match List.find? (fun u => u.id == id) db with
    | some u => (some u, st.set (.user id) (.acct u) 1800 now)
    | none => (none, st)

/-- Write an updated row back to the `users` table. -/
def dbUpdateUser (db : Db) (u : User) : Db :=
  List.map (fun v => if v.id == u.id then u else v) db

/-- Process-wide configuration: the JWT expiry policy in seconds
(`process.env.JWT_EXPIRES_IN || '7d'`). -/
structure Config where
  jwtExpiresIn : Nat := 7 * 24 * 60 * 60
deriving DecidableEq, Repr

/-- A JSON error response: HTTP status, error message and error code. -/
structure ApiError where
  status : Nat
  errMsg : String
  code : String
deriving DecidableEq, Repr

/-- Typed outcome of a handler: a success value or an error response. -/
inductive Outcome (α : Type) where
  | ok (a : α)
  | err (e : ApiError)
deriving DecidableEq, Repr

/-- AuthController.login (README lines 581-718).  In order: the per-IP
fixed-window check on `login_attempts:{ip}` (reject at 10), the email lookup
(counter bumped and INVALID_CREDENTIALS on unknown email), the lock check,
the active check, the password check (failed attempt recorded, counter
bumped, INVALID_CREDENTIALS), then on success the attempt is recorded, the
IP counter deleted, a fresh token issued and stored under `session:{id}` and
`user_session:{id}` with a 7-day TTL. -/
def AuthController.login (cfg : Config) (db : Db) (st : St)
    (email password ip : String) (now : Nat) : Outcome Token × Db × St :=
  let loginKey := CacheKey.loginAttempts ip
  let loginAttempts := (getNat st.redis loginKey now).getD 0
  if 10 ≤ loginAttempts then
    (.err ⟨429, "Too many login attempts. Please try again later.", "LOGIN_RATE_LIMIT"⟩,
      db, st)
  else
    match User.findByEmail db email with
    | none =>
      let st := st.set loginKey (.num (loginAttempts + 1)) 3600 now
      (.err ⟨401, "Invalid credentials", "INVALID_CREDENTIALS"⟩, db, st)
    | some user =>
      if user.isLocked now then
        (.err ⟨423, "Account is temporarily locked due to multiple failed login attempts",
          "ACCOUNT_LOCKED"⟩, db, st)
      else if user.isActive = false then
        (.err ⟨403, "Account is deactivated", "ACCOUNT_INACTIVE"⟩, db, st)
      else if user.validatePassword password = false then
        let user1 := user.recordLoginAttempt false ip now
        let db := dbUpdateUser db user1
        let st := (st.write).del (.user user.id)
        let st := st.set loginKey (.num (loginAttempts + 1)) 3600 now
        (.err ⟨401, "Invalid credentials", "INVALID_CREDENTIALS"⟩, db, st)
      else
        let user1 := user.recordLoginAttempt true ip now
        let db := dbUpdateUser db user1
        let st := (st.write).del (.user user.id)
        let st := st.del loginKey
        let token := user.generateJWT cfg.jwtExpiresIn now
        let st := st.set (.session user.id) (.tok token) (7 * 24 * 60 * 60) now
        let st := st.set (.userSession user.id) (.payload ip) (7 * 24 * 60 * 60) now
        (.ok token, db, st)

/-- AuthController.register (README lines 493-578).  In order: the per-IP
fixed-window check on `registration:{ip}` (reject at 3), User.create (with
the duplicate email/username check), the counter bump with a 1-hour TTL,
token issuance and the `session:{id}` record with a 7-day TTL.  `newId` is
the UUID the database assigns to the inserted row. -/
def AuthController.register (cfg : Config) (db : Db) (st : St)
    (email username password ip : String) (newId : Nat) (now : Nat) :
    Outcome Token × Db × St :=
  let regKey := CacheKey.registration ip
  let registrationCount := (getNat st.redis regKey now).getD 0
  if 3 ≤ registrationCount then
    (.err ⟨429, "Too many registration attempts. Please try again later.",
      "REGISTRATION_RATE_LIMIT"⟩, db, st)
  else
    match List.find? (fun u => u.email == lowerStr email || u.username == username) db with
    | some existing =>
      let field := if existing.email == lowerStr email then "email" else "username"
      (.err ⟨409, "User with this " ++ field ++ " already exists", "USER_ALREADY_EXISTS"⟩,
        db, st)
    | none =>
      let user : User :=
        { id := newId, email := lowerStr email, username := username,
          passwordHash := bcryptHash password, isActive := true, emailVerified := false,
          failedLoginAttempts := 0, lockedUntil := none, lastLoginAt := none,
          lastLoginIp := none, passwordResetToken := none, passwordResetExpires := none }
      let db := db ++ [user]
      let st := st.write
      let st := st.set regKey (.num (registrationCount + 1)) 3600 now
      let token := user.generateJWT cfg.jwtExpiresIn now
      let st := st.set (.session user.id) (.tok token) (7 * 24 * 60 * 60) now
      (.ok token, db, st)

/-- AuthController.logout (README lines 721-765): decode the presented token
without verification, compute its remaining lifetime, blacklist it for
exactly that long when positive, then delete the canonical session records. -/
def AuthController.logout (st : St) (reqUserId : Nat) (reqToken : Option Token)
    (now : Nat) : Outcome Unit × St :=
  let st :=
    match reqToken with
    | some t =>
      let expiresIn : Int := (t.exp : Int) - (now : Int)
      if 0 < expiresIn then st.set (.blacklist t) (.flag true) expiresIn.toNat now else st
    | none => st
  let st := st.del (.session reqUserId)
  let st := st.del (.userSession reqUserId)
  (.ok (), st)

/-- AuthController.changePassword (README lines 863-937): find the user,
check the current password, durably update the hash (User.updatePassword,
part_004 lines 924-951, which also drops the `user:{id}` cache row), delete
the `session:{id}` and `user_session:{id}` records via deletePattern, then
issue and store a fresh token with a 7-day TTL. -/
def AuthController.changePassword (cfg : Config) (db : Db) (st : St)
    (reqUserId : Nat) (currentPassword newPassword : String) (now : Nat) :
    Outcome Token × Db × St :=
  match User.findById db st reqUserId now with
  | (none, st) => (.err ⟨404, "User not found", "USER_NOT_FOUND"⟩, db, st)
  | (some user, st) =>
    if user.validatePassword currentPassword = false then
      (.err ⟨401, "Current password is incorrect", "INVALID_CURRENT_PASSWORD"⟩, db, st)
    else
      let user1 := { user with passwordHash := bcryptHash newPassword,
                               passwordResetToken := none, passwordResetExpires := none }
      let db := dbUpdateUser db user1
      let st := (st.write).del (.user user.id)
      let st := st.delPat (.exact (.session user.id))
      let st := st.delPat (.exact (.userSession user.id))
      let token := user.generateJWT cfg.jwtExpiresIn now
      let st := st.set (.session user.id) (.tok token) (7 * 24 * 60 * 60) now
      (.ok token, db, st)

/-- AuthController.refreshToken (README lines 1099-1149): find the user,
require an active account, issue and store the new token first, and only
then blacklist the presented token for its remaining lifetime (when
positive). -/
def AuthController.refreshToken (cfg : Config) (db : Db) (st : St)
    (reqUserId : Nat) (reqToken : Option Token) (now : Nat) :
    Outcome Token × Db × St :=
  match User.findById db st reqUserId now with
  | (none, st) => (.err ⟨401, "User not found or inactive", "USER_INACTIVE"⟩, db, st)
  | (some user, st) =>
    if user.isActive = false then
      (.err ⟨401, "User not found or inactive", "USER_INACTIVE"⟩, db, st)
    else
      let token := user.generateJWT cfg.jwtExpiresIn now
      let st := st.set (.session user.id) (.tok token) (7 * 24 * 60 * 60) now
      let st :=
        match reqToken with
        | some t =>
          let expiresIn : Int := (t.exp : Int) - (now : Int)
          if 0 < expiresIn then st.set (.blacklist t) (.flag true) expiresIn.toNat now
          else st
        | none => st
      (.ok token, db, st)

/-- authenticateToken (security.js lines 174-226): missing token, then the
blacklist (revocation) check, then signature/expiry verification, in that
order. -/
def authenticateToken (r : Redis) (tok : Option Token) (now : Nat) : Outcome Token :=
  match tok with
  | none => .err ⟨401, "Access token required", "TOKEN_REQUIRED"⟩
  | some t =>
    if r.rexists (.blacklist t) now then
      .err ⟨401, "Token has been revoked", "TOKEN_REVOKED"⟩
    else
      match jwtVerify t now with
      | .error .expired => .err ⟨401, "Token expired", "TOKEN_EXPIRED"⟩
      | .error .invalid => .err ⟨401, "Invalid token", "TOKEN_INVALID"⟩
      | .ok payload => .ok payload

/-- The fixed-window rate-limit prelude shared by AuthController.register
(threshold 3, README lines 506-533), AuthController.login (threshold 10,
lines 595-607) and AuthController.requestPasswordReset (threshold 5, lines
953-981): read the per-IP counter (a miss counts as 0), reject once it has
reached the threshold, otherwise let the request proceed and store
counter + 1 with a 1-hour TTL.  Returns whether the request was allowed. -/
def fixedWindowGate (threshold : Nat) (k : CacheKey) (st : St) (now : Nat) : Bool × St :=
  let count := (getNat st.redis k now).getD 0
  if threshold ≤ count then (false, st)
  else (true, st.set k (.num (count + 1)) 3600 now)

/-- Iterate `fixedWindowGate` for a burst of n requests arriving at the same
instant, collecting each request's allow/reject decision in order. -/
def fixedWindowRun (threshold : Nat) (k : CacheKey) (now : Nat) :
    Nat → St → List Bool × St
  | 0, st => ([], st)
  | n + 1, st =>
    let p := fixedWindowGate threshold k st now
    let q := fixedWindowRun threshold k now n p.2
    (p.1 :: q.1, q.2)

/-- One row of the `todos` table (part_004 class Todo, the fields touched by
Todo.update). -/
structure TodoRec where
  id : Nat
  userId : Nat
  title : String
  description : String
  completed : Bool
  priority : Nat
  category : String
  dueDate : Option Nat
  completedAt : Option Nat
  tags : List String
  position : Nat
deriving DecidableEq, Repr

/-- The update payload accepted by Todo.update: each allowed field either
absent (undefined) or present with its new value. -/
structure TodoUpdate where
  title : Option String := none
  description : Option String := none
  completed : Option Bool := none
  priority : Option Nat := none
  category : Option String := none
  dueDate : Option Nat := none
  tags : Option (List String) := none
  position : Option Nat := none
deriving DecidableEq, Repr

/-- Whether the filtered update data is empty (`Object.keys(filteredData)
.length === 0` in Todo.update). -/
def TodoUpdate.isEmpty (u : TodoUpdate) : Bool :=
  u.title.isNone && u.description.isNone && u.completed.isNone && u.priority.isNone &&
  u.category.isNone && u.dueDate.isNone && u.tags.isNone && u.position.isNone

/-- The row produced by Todo.update's field application (part_004 lines
476-514): present fields overwrite, and flipping `completed` false→true
stamps `completed_at := now` while true→false clears it. -/
def TodoRec.applyUpdate (t : TodoRec) (u : TodoUpdate) (now : Nat) : TodoRec :=
  let completedAt :=
    match u.completed with
    | some true => if t.completed then t.completedAt else some now
    | some false => if t.completed then none else t.completedAt
    | none => t.completedAt
  { t with
    title := u.title.getD t.title
    description := u.description.getD t.description
    completed := u.completed.getD t.completed
    priority := u.priority.getD t.priority
    category := u.category.getD t.category
    dueDate := match u.dueDate with | some d => some d | none => t.dueDate
    tags := u.tags.getD t.tags
    position := u.position.getD t.position
    completedAt := completedAt }

/-- Todo.invalidateUserCache (part_004 lines 446-459): drop the six cache-key
families derived from this user's todo collection — "todos:{id}:*",
"user_categories:{id}", "user_tags:{id}", "overdue_todos:{id}",
"upcoming_todos:{id}:*" and "user_stats:{id}". -/
def Todo.invalidateUserCache (st : St) (userId : Nat) : St :=
  let st := st.delPat (.todosAll userId)
  let st := st.delPat (.exact (.userCategories userId))
  let st := st.delPat (.exact (.userTags userId))
  let st := st.delPat (.exact (.overdueTodos userId))
  let st := st.delPat (.upcomingAll userId)
  st.delPat (.exact (.userStats userId))

/-- Todo.update (part_004 lines 462-530): reject an empty update, otherwise
durably write the filtered fields, then invalidate the owner's cache
families, then return the updated row (the handler's response). -/
def Todo.update (tdb : List TodoRec) (st : St) (t : TodoRec) (u : TodoUpdate)
    (now : Nat) : Outcome TodoRec × List TodoRec × St :=
  if u.isEmpty then
    (.err ⟨500, "No valid fields to update", "UPDATE_ERROR"⟩, tdb, st)
  else
    let t1 := t.applyUpdate u now
    let tdb := List.map (fun x => if x.id == t.id then t1 else x) tdb
    let st := st.write
    let st := Todo.invalidateUserCache st t.userId
    (.ok t1, tdb, st)

/-- The keys belonging to a user's todo-derived cache families — exactly the
keys Todo.invalidateUserCache targets for that user. -/
def ownedKey (uid : Nat) : CacheKey → Bool
  | .todos u _ => uid == u
  | .userCategories u => uid == u
  | .userTags u => uid == u
  | .overdueTodos u => uid == u
  | .upcomingTodos u _ => uid == u
  | .userStats u => uid == u
  | _ => false

/-! Helper lemmas about the Redis model, shared by the claim theorems. -/

theorem find?_filter_of_imp {α} (p q : α → Bool) (l : List α)
    (h : ∀ a, p a = true → q a = true) :
    (l.filter q).find? p = l.find? p := by
  induction l with
  | nil => rfl
  | cons a l ih =>
    by_cases hq : q a = true
    · by_cases hp : p a = true
      · simp [List.filter_cons, hq, List.find?_cons, hp]
      · simp only [Bool.not_eq_true] at hp
        simp [List.filter_cons, hq, List.find?_cons, hp, ih]
    · simp only [Bool.not_eq_true] at hq
      have hp : p a = false := by
        cases hpa : p a with
        | false => rfl
        | true => rw [h a hpa] at hq; cases hq
      simp [List.filter_cons, hq, List.find?_cons, hp, ih]

theorem find?_filter_of_none {α} (p q : α → Bool) (l : List α)
    (h : ∀ a, p a = true → q a = false) :
    (l.filter q).find? p = none := by
  induction l with
  | nil => rfl
  | cons a l ih =>
    by_cases hq : q a = true
    · have hp : p a = false := by
        cases hpa : p a with
        | false => rfl
        | true => rw [h a hpa] at hq; cases hq
      simp [List.filter_cons, hq, List.find?_cons, hp, ih]
    · simp only [Bool.not_eq_true] at hq
      simp [List.filter_cons, hq, ih]

/-- A filter that only discards keys other than `k` does not change `k`'s
lookup. -/
theorem Redis.lookup_filterKeys (r : Redis) (keep : CacheKey → Bool)
    (k : CacheKey) (n : Nat) (hkeep : keep k = true) :
    Redis.lookup { r with entries := r.entries.filter (fun e => keep e.key) } k n
      = r.lookup k n := by
  unfold Redis.lookup
  rw [find?_filter_of_imp]
  intro e he
  have : e.key = k := by simpa using he
  rw [this, hkeep]

/-- A filter that discards key `k` empties `k`'s lookup. -/
theorem Redis.lookup_filterKeys_none (r : Redis) (keep : CacheKey → Bool)
    (k : CacheKey) (n : Nat) (hkeep : keep k = false) :
    Redis.lookup { r with entries := r.entries.filter (fun e => keep e.key) } k n
      = none := by
  unfold Redis.lookup
  rw [find?_filter_of_none]
  intro e he
  have : e.key = k := by simpa using he
  rw [this, hkeep]

theorem Redis.lookup_rset_self (r : Redis) (hconn : r.conn = true)
    (k : CacheKey) (v : CacheVal) (ttl now n : Nat) :
    ((r.rset k v ttl now).1).lookup k n = if n < now + ttl then some v else none := by
  simp [Redis.rset, hconn, Redis.lookup, List.find?_cons]

theorem Redis.lookup_rset_other (r : Redis) (k : CacheKey) (v : CacheVal)
    (ttl now : Nat) (k' : CacheKey) (hne : ¬ k' = k) (n : Nat) :
    ((r.rset k v ttl now).1).lookup k' n = r.lookup k' n := by
  by_cases hconn : r.conn = true
  · have hb : (k == k') = false := by
      cases hkk : k == k' with
      | false => rfl
      | true => exact absurd (eq_of_beq hkk).symm hne
    simp only [Redis.rset, hconn, if_true]
    unfold Redis.lookup
    simp only [List.find?_cons, hb]
    rw [find?_filter_of_imp]
    intro e he
    have hek : e.key = k' := by simpa using he
    rw [hek]
    simp only [Bool.not_eq_true', beq_eq_false_iff_ne, ne_eq]
    exact hne
  · simp only [Bool.not_eq_true] at hconn
    simp [Redis.rset, hconn]

theorem Redis.lookup_rdel_other (r : Redis) (k k' : CacheKey) (hne : ¬ k' = k)
    (n : Nat) : ((r.rdel k).1).lookup k' n = r.lookup k' n := by
  by_cases hconn : r.conn = true
  · simp only [Redis.rdel, hconn, if_true]
    exact Redis.lookup_filterKeys r (fun key => !(key == k)) k' n (by simp [hne])
  · simp only [Bool.not_eq_true] at hconn
    simp [Redis.rdel, hconn]

theorem Redis.lookup_rdel_self (r : Redis) (hconn : r.conn = true) (k : CacheKey)
    (n : Nat) : ((r.rdel k).1).lookup k n = none := by
  simp only [Redis.rdel, hconn, if_true]
  exact Redis.lookup_filterKeys_none r (fun key => !(key == k)) k n (by simp)

theorem Redis.lookup_delPattern_match (r : Redis) (hconn : r.conn = true) (p : Pat)
    (k : CacheKey) (n : Nat) (hm : p.matches k = true) :
    (r.delPattern p).lookup k n = none := by
  simp only [Redis.delPattern, hconn, if_true]
  exact Redis.lookup_filterKeys_none r (fun key => !(p.matches key)) k n (by simp [hm])

theorem Redis.lookup_delPattern_other (r : Redis) (p : Pat) (k : CacheKey) (n : Nat)
    (hm : p.matches k = false) :
    (r.delPattern p).lookup k n = r.lookup k n := by
  by_cases hconn : r.conn = true
  · simp only [Redis.delPattern, hconn, if_true]
    exact Redis.lookup_filterKeys r (fun key => !(p.matches key)) k n (by simp [hm])
  · simp only [Bool.not_eq_true] at hconn
    simp [Redis.delPattern, hconn]

theorem Redis.conn_rset (r : Redis) (k : CacheKey) (v : CacheVal) (ttl now : Nat) :
    ((r.rset k v ttl now).1).conn = r.conn := by
  unfold Redis.rset
  by_cases h : r.conn = true <;> simp [h]

theorem Redis.conn_rdel (r : Redis) (k : CacheKey) :
    ((r.rdel k).1).conn = r.conn := by
  unfold Redis.rdel
  by_cases h : r.conn = true <;> simp [h]

theorem Redis.conn_delPattern (r : Redis) (p : Pat) :
    (r.delPattern p).conn = r.conn := by
  unfold Redis.delPattern
  by_cases h : r.conn = true <;> simp [h]

/-! Helper lemmas about AuthController.logout's effect. -/

theorem logout_conn (st : St) (uid : Nat) (tk : Option Token) (now : Nat) :
    (AuthController.logout st uid tk now).2.redis.conn = st.redis.conn := by
  unfold AuthController.logout
  match tk with
  | none => simp [St.del, Redis.conn_rdel]
  | some t =>
    by_cases h : (0 : Int) < (t.exp : Int) - (now : Int) <;>
      simp [h, St.del, St.set, Redis.conn_rdel, Redis.conn_rset]

theorem logout_blacklist_lookup (st : St) (uid : Nat) (t : Token) (now n : Nat)
    (hconn : st.redis.conn = true) (hpos : now < t.exp) :
    (AuthController.logout st uid (some t) now).2.redis.lookup (.blacklist t) n
      = if n < t.exp then some (.flag true) else none := by
  have hcond : (0 : Int) < (t.exp : Int) - (now : Int) := by omega
  simp only [AuthController.logout, St.set, St.del, if_pos hcond]
  rw [Redis.lookup_rdel_other _ _ _ (by simp)]
  rw [Redis.lookup_rdel_other _ _ _ (by simp)]
  rw [Redis.lookup_rset_self _ hconn]
  have h1 : ((t.exp : Int) - (now : Int)).toNat = t.exp - now := by omega
  have h2 : now + (t.exp - now) = t.exp := by omega
  rw [h1, h2]

theorem logout_other_blacklist_lookup (st : St) (uid : Nat) (t t' : Token)
    (now n : Nat) (hne : ¬ t' = t) :
    (AuthController.logout st uid (some t) now).2.redis.lookup (.blacklist t') n
      = st.redis.lookup (.blacklist t') n := by
  by_cases hcond : (0 : Int) < (t.exp : Int) - (now : Int)
  · simp only [AuthController.logout, St.set, St.del, if_pos hcond]
    rw [Redis.lookup_rdel_other _ _ _ (by simp)]
    rw [Redis.lookup_rdel_other _ _ _ (by simp)]
    rw [Redis.lookup_rset_other _ _ _ _ _ _ (by simp [hne])]
  · simp only [AuthController.logout, St.set, St.del, if_neg hcond]
    rw [Redis.lookup_rdel_other _ _ _ (by simp)]
    rw [Redis.lookup_rdel_other _ _ _ (by simp)]

theorem logout_session_lookup (st : St) (uid : Nat) (tk : Option Token)
    (now n : Nat) (hconn : st.redis.conn = true) :
    (AuthController.logout st uid tk now).2.redis.lookup (.session uid) n = none := by
  unfold AuthController.logout
  match tk with
  | none =>
    simp only [St.del]
    rw [Redis.lookup_rdel_other _ _ _ (by simp)]
    exact Redis.lookup_rdel_self _ hconn _ _
  | some t =>
    by_cases hcond : (0 : Int) < (t.exp : Int) - (now : Int)
    · simp only [St.set, St.del, if_pos hcond]
      rw [Redis.lookup_rdel_other _ _ _ (by simp)]
      refine Redis.lookup_rdel_self _ ?_ _ _
      rw [Redis.conn_rset]
      exact hconn
    · simp only [St.set, St.del, if_neg hcond]
      rw [Redis.lookup_rdel_other _ _ _ (by simp)]
      exact Redis.lookup_rdel_self _ hconn _ _

theorem logout_trace (st : St) (uid : Nat) (t : Token) (now : Nat) :
    (AuthController.logout st uid (some t) now).2.trace
      = st.trace
        ++ (if now < t.exp then [Ev.cset (.blacklist t) (.flag true) (t.exp - now)] else [])
        ++ [Ev.cdel (.session uid), Ev.cdel (.userSession uid)] := by
  by_cases hpos : now < t.exp
  · have hcond : (0 : Int) < (t.exp : Int) - (now : Int) := by omega
    have h1 : ((t.exp : Int) - (now : Int)).toNat = t.exp - now := by omega
    simp [AuthController.logout, St.set, St.del, hcond, hpos, h1]
  · have hcond : ¬ (0 : Int) < (t.exp : Int) - (now : Int) := by omega
    simp [AuthController.logout, St.set, St.del, hcond, hpos]

/-- C1: authenticateToken checks the revocation entry (blacklist) before
signature and expiry verification.  (1) After a logout at time now of a
token t whose embedded expiry is still in the future, presenting t at any
later instant before that expiry is rejected with TOKEN_REVOKED.  (2) Any
token with a live revocation entry is rejected with TOKEN_REVOKED outright,
whatever its signature or expiry state — the revocation check comes first.
(3) A never-revoked, correctly signed token with the same claims is accepted
until its expiry, and rejected as expired from then on. -/
theorem revoked_token_rejected_before_expiry
    (st : St) (uid : Nat) (t : Token) (now : Nat)
    (hconn : st.redis.conn = true) (hfuture : now < t.exp) :
    (∀ n, now ≤ n → n < t.exp →
      authenticateToken (AuthController.logout st uid (some t) now).2.redis (some t) n
        = .err ⟨401, "Token has been revoked", "TOKEN_REVOKED"⟩)
    ∧ (∀ (r : Redis) (tb : Token) (n : Nat), r.rexists (.blacklist tb) n = true →
        authenticateToken r (some tb) n
          = .err ⟨401, "Token has been revoked", "TOKEN_REVOKED"⟩)
    ∧ (∀ (t' : Token) (n : Nat),
        t'.userId = t.userId → t'.email = t.email → t'.username = t.username →
        t'.isActive = t.isActive → t'.emailVerified = t.emailVerified →
        t'.sig = true →
        (AuthController.logout st uid (some t) now).2.redis.lookup (.blacklist t') n
          = none →
        (n < t'.exp →
          authenticateToken (AuthController.logout st uid (some t) now).2.redis
            (some t') n = .ok t')
        ∧ (t'.exp ≤ n →
          authenticateToken (AuthController.logout st uid (some t) now).2.redis
            (some t') n = .err ⟨401, "Token expired", "TOKEN_EXPIRED"⟩)) := by
  refine ⟨?_, ?_, ?_⟩
  · intro n h1 h2
    have hb := logout_blacklist_lookup st uid t now n hconn hfuture
    rw [if_pos h2] at hb
    have hex : (AuthController.logout st uid (some t) now).2.redis.rexists
        (.blacklist t) n = true := by
      unfold Redis.rexists
      rw [logout_conn, hconn, hb]
      rfl
    simp [authenticateToken, hex]
  · intro r tb n hex
    simp [authenticateToken, hex]
  · intro t' n _ _ _ _ _ hsig hnb
    have hex : (AuthController.logout st uid (some t) now).2.redis.rexists
        (.blacklist t') n = false := by
      unfold Redis.rexists
      rw [hnb]
      simp
    constructor
    · intro hlt
      simp [authenticateToken, hex, jwtVerify, hsig, Nat.not_le.mpr hlt]
    · intro hge
      simp [authenticateToken, hex, jwtVerify, hsig, hge]

/-- Witness for C1 at a concrete state: token issued at 0 expiring at 100 and
logged out at 10 is rejected as revoked at 50, while a same-claims token
issued at 5 that was never revoked is accepted at 50. -/
theorem revoked_token_rejected_before_expiry_witness :
    authenticateToken
      (AuthController.logout ⟨⟨true, []⟩, []⟩ 1
        (some ⟨1, "a", "u", true, false, 0, 100, true⟩) 10).2.redis
      (some ⟨1, "a", "u", true, false, 0, 100, true⟩) 50
      = .err ⟨401, "Token has been revoked", "TOKEN_REVOKED"⟩
    ∧ authenticateToken
      (AuthController.logout ⟨⟨true, []⟩, []⟩ 1
        (some ⟨1, "a", "u", true, false, 0, 100, true⟩) 10).2.redis
      (some ⟨1, "a", "u", true, false, 5, 100, true⟩) 50
      = .ok ⟨1, "a", "u", true, false, 5, 100, true⟩ := by
  have h := revoked_token_rejected_before_expiry ⟨⟨true, []⟩, []⟩ 1
    ⟨1, "a", "u", true, false, 0, 100, true⟩ 10 rfl (by decide)
  refine ⟨h.1 50 (by decide) (by decide), ?_⟩
  exact (h.2.2 ⟨1, "a", "u", true, false, 5, 100, true⟩ 50 rfl rfl rfl rfl rfl rfl
    (by decide)).1 (by decide)

/-- C6: when revokeCurrent runs (logout), the remaining lifetime is computed
from the token's embedded expiry; a revocation entry is inserted if and only
if that lifetime is positive, with a TTL of exactly that lifetime (the entry
is live precisely until the token's own expiry — never longer, never
shorter), and the canonical session record is deleted. -/
theorem revocation_entry_ttl_is_remaining_lifetime
    (st : St) (uid : Nat) (t : Token) (now : Nat) (hconn : st.redis.conn = true) :
    ((AuthController.logout st uid (some t) now).2.trace
      = st.trace
        ++ (if now < t.exp then [Ev.cset (.blacklist t) (.flag true) (t.exp - now)] else [])
        ++ [Ev.cdel (.session uid), Ev.cdel (.userSession uid)])
    ∧ (now < t.exp →
        ∀ n, (AuthController.logout st uid (some t) now).2.redis.lookup (.blacklist t) n
          = if n < t.exp then some (.flag true) else none)
    ∧ (∀ n, (AuthController.logout st uid (some t) now).2.redis.lookup (.session uid) n
        = none) :=
  ⟨logout_trace st uid t now,
   fun hpos n => logout_blacklist_lookup st uid t now n hconn hpos,
   fun n => logout_session_lookup st uid (some t) now n hconn⟩

/-- Witness for C6: logging out, at time 40, a token expiring at 100 inserts
a revocation entry with TTL 60 that is live at 99 and gone at 100, and
deletes the session record. -/
theorem revocation_entry_ttl_is_remaining_lifetime_witness :
    ((AuthController.logout ⟨⟨true, []⟩, []⟩ 1
        (some ⟨1, "a", "u", true, false, 0, 100, true⟩) 40).2.trace
      = [Ev.cset (.blacklist ⟨1, "a", "u", true, false, 0, 100, true⟩) (.flag true) 60,
         Ev.cdel (.session 1), Ev.cdel (.userSession 1)])
    ∧ ((AuthController.logout ⟨⟨true, []⟩, []⟩ 1
        (some ⟨1, "a", "u", true, false, 0, 100, true⟩) 40).2.redis.lookup
        (.blacklist ⟨1, "a", "u", true, false, 0, 100, true⟩) 99 = some (.flag true))
    ∧ ((AuthController.logout ⟨⟨true, []⟩, []⟩ 1
        (some ⟨1, "a", "u", true, false, 0, 100, true⟩) 40).2.redis.lookup
        (.blacklist ⟨1, "a", "u", true, false, 0, 100, true⟩) 100 = none)
    ∧ ((AuthController.logout ⟨⟨true, []⟩, []⟩ 1
        (some ⟨1, "a", "u", true, false, 0, 100, true⟩) 40).2.redis.lookup
        (.session 1) 40 = none) := by
  have h := revocation_entry_ttl_is_remaining_lifetime ⟨⟨true, []⟩, []⟩ 1
    ⟨1, "a", "u", true, false, 0, 100, true⟩ 40 rfl
  exact ⟨h.1.trans (by decide), (h.2.1 (by decide) 99).trans (by decide),
    (h.2.1 (by decide) 100).trans (by decide), h.2.2 40⟩

/-! Branch lemmas for AuthController.login, shared by several claims. -/

theorem login_unknown_email (cfg : Config) (db : Db) (st : St)
    (email password ip : String) (now : Nat)
    (hrate : (getNat st.redis (.loginAttempts ip) now).getD 0 < 10)
    (hfind : User.findByEmail db email = none) :
    AuthController.login cfg db st email password ip now
      = (.err ⟨401, "Invalid credentials", "INVALID_CREDENTIALS"⟩, db,
         st.set (.loginAttempts ip)
           (.num ((getNat st.redis (.loginAttempts ip) now).getD 0 + 1)) 3600 now) := by
  simp [AuthController.login, hfind, Nat.not_le.mpr hrate]

theorem login_locked (cfg : Config) (db : Db) (st : St)
    (email password ip : String) (now : Nat) (u : User)
    (hrate : (getNat st.redis (.loginAttempts ip) now).getD 0 < 10)
    (hfind : User.findByEmail db email = some u)
    (hlock : u.isLocked now = true) :
    AuthController.login cfg db st email password ip now
      = (.err ⟨423, "Account is temporarily locked due to multiple failed login attempts",
          "ACCOUNT_LOCKED"⟩, db, st) := by
  simp [AuthController.login, hfind, hlock, Nat.not_le.mpr hrate]

theorem login_wrong_password (cfg : Config) (db : Db) (st : St)
    (email password ip : String) (now : Nat) (u : User)
    (hrate : (getNat st.redis (.loginAttempts ip) now).getD 0 < 10)
    (hfind : User.findByEmail db email = some u)
    (hlock : u.isLocked now = false)
    (hactive : u.isActive = true)
    (hpw : u.validatePassword password = false) :
    AuthController.login cfg db st email password ip now
      = (.err ⟨401, "Invalid credentials", "INVALID_CREDENTIALS"⟩,
         dbUpdateUser db (u.recordLoginAttempt false ip now),
         (((st.write).del (.user u.id)).set (.loginAttempts ip)
           (.num ((getNat st.redis (.loginAttempts ip) now).getD 0 + 1)) 3600 now)) := by
  simp [AuthController.login, hfind, hlock, hactive, hpw, Nat.not_le.mpr hrate]

theorem login_success (cfg : Config) (db : Db) (st : St)
    (email password ip : String) (now : Nat) (u : User)
    (hrate : (getNat st.redis (.loginAttempts ip) now).getD 0 < 10)
    (hfind : User.findByEmail db email = some u)
    (hlock : u.isLocked now = false)
    (hactive : u.isActive = true)
    (hpw : u.validatePassword password = true) :
    AuthController.login cfg db st email password ip now
      = (.ok (u.generateJWT cfg.jwtExpiresIn now),
         dbUpdateUser db (u.recordLoginAttempt true ip now),
         ((((st.write).del (.user u.id)).del (.loginAttempts ip)).set
             (.session u.id) (.tok (u.generateJWT cfg.jwtExpiresIn now))
             (7 * 24 * 60 * 60) now).set
           (.userSession u.id) (.payload ip) (7 * 24 * 60 * 60) now) := by
  simp [AuthController.login, hfind, hlock, hactive, hpw, Nat.not_le.mpr hrate]

/-- Fold of consecutive failed authentication attempts: apply
User.recordLoginAttempt(false) at each of the given instants, oldest
first. -/
def failN (u : User) (ip : String) : List Nat → User
  | [] => u
  | t :: ts => failN (u.recordLoginAttempt false ip t) ip ts

/-- C3: starting from a clean account, five consecutive failed authentication
attempts with no intervening success set the lock-expiry to 30 minutes
(1800 s) after the fifth failure, isLocked holds throughout that window, and
a login attempt during the window — even with the correct password — returns
the ACCOUNT_LOCKED response (status 423) and changes neither the account row
nor the cache, while a failed-password login records exactly one
recordLoginAttempt(false) on the row. -/
theorem five_failures_lock_account :
    (∀ (u : User) (ip : String) (t1 t2 t3 t4 t5 : Nat),
      u.failedLoginAttempts = 0 → u.lockedUntil = none →
      (failN u ip [t1, t2, t3, t4, t5]).failedLoginAttempts = 5
      ∧ (failN u ip [t1, t2, t3, t4, t5]).lockedUntil = some (t5 + 30 * 60)
      ∧ ∀ n, n < t5 + 30 * 60 → (failN u ip [t1, t2, t3, t4, t5]).isLocked n = true)
    ∧ (∀ (cfg : Config) (db : Db) (st : St) (email password ip : String)
        (now : Nat) (u : User),
        (getNat st.redis (.loginAttempts ip) now).getD 0 < 10 →
        User.findByEmail db email = some u →
        u.isLocked now = true →
        u.validatePassword password = true →
        AuthController.login cfg db st email password ip now
          = (.err ⟨423,
              "Account is temporarily locked due to multiple failed login attempts",
              "ACCOUNT_LOCKED"⟩, db, st))
    ∧ (∀ (cfg : Config) (db : Db) (st : St) (email password ip : String)
        (now : Nat) (u : User),
        (getNat st.redis (.loginAttempts ip) now).getD 0 < 10 →
        User.findByEmail db email = some u →
        u.isLocked now = false →
        u.isActive = true →
        u.validatePassword password = false →
        (AuthController.login cfg db st email password ip now).1
          = .err ⟨401, "Invalid credentials", "INVALID_CREDENTIALS"⟩
        ∧ (AuthController.login cfg db st email password ip now).2.1
          = dbUpdateUser db (u.recordLoginAttempt false ip now)) := by
  refine ⟨?_, ?_, ?_⟩
  · intro u ip t1 t2 t3 t4 t5 h0 hl
    have hlock : (failN u ip [t1, t2, t3, t4, t5]).lockedUntil = some (t5 + 30 * 60) := by
      simp [failN, User.recordLoginAttempt, h0, hl]
    refine ⟨?_, hlock, ?_⟩
    · simp [failN, User.recordLoginAttempt, h0]
    · intro n hn
      simp [User.isLocked, hlock, hn]
  · intro cfg db st email password ip now u hrate hfind hlock _
    exact login_locked cfg db st email password ip now u hrate hfind hlock
  · intro cfg db st email password ip now u hrate hfind hlock hactive hpw
    rw [login_wrong_password cfg db st email password ip now u hrate hfind hlock
      hactive hpw]
    exact ⟨rfl, rfl⟩

/-- Witness for C3: a concrete account locked by five failures at times
10..14 is locked until 1814, and a sixth attempt with the correct password
at time 100 returns ACCOUNT_LOCKED with the row and cache untouched. -/
theorem five_failures_lock_account_witness :
    (failN ⟨1, "e@x", "u", bcryptHash "pw", true, false, 0, none, none, none, none,
        none⟩ "ip" [10, 11, 12, 13, 14]).lockedUntil = some 1814
    ∧ AuthController.login ⟨604800⟩
        [⟨1, "e@x", "u", bcryptHash "pw", true, false, 5, some 1814, none,
          some "ip", none, none⟩] ⟨⟨true, []⟩, []⟩ "e@x" "pw" "ip" 100
        = (.err ⟨423,
            "Account is temporarily locked due to multiple failed login attempts",
            "ACCOUNT_LOCKED"⟩,
           [⟨1, "e@x", "u", bcryptHash "pw", true, false, 5, some 1814, none,
             some "ip", none, none⟩], ⟨⟨true, []⟩, []⟩) := by
  have h := five_failures_lock_account
  constructor
  · exact ((h.1 ⟨1, "e@x", "u", bcryptHash "pw", true, false, 0, none, none, none,
      none, none⟩ "ip" 10 11 12 13 14 rfl rfl).2.1).trans (by decide)
  · exact h.2.1 ⟨604800⟩
      [⟨1, "e@x", "u", bcryptHash "pw", true, false, 5, some 1814, none,
        some "ip", none, none⟩] ⟨⟨true, []⟩, []⟩ "e@x" "pw" "ip" 100
      ⟨1, "e@x", "u", bcryptHash "pw", true, false, 5, some 1814, none,
        some "ip", none, none⟩ (by decide) (by decide) (by decide) (by decide)

/-- C4: a successful authentication attempt zeroes the failed-attempt
counter, clears the lock-expiry and records the login timestamp and client
address; a successful login applies exactly that update to the stored row;
and four consecutive failures followed by a success never engage the lock
and leave the counter at 0. -/
theorem success_resets_lockout_counter :
    (∀ (u : User) (ip : String) (now : Nat),
      (u.recordLoginAttempt true ip now).failedLoginAttempts = 0
      ∧ (u.recordLoginAttempt true ip now).lockedUntil = none
      ∧ (u.recordLoginAttempt true ip now).lastLoginAt = some now
      ∧ (u.recordLoginAttempt true ip now).lastLoginIp = some ip)
    ∧ (∀ (cfg : Config) (db : Db) (st : St) (email password ip : String)
        (now : Nat) (u : User),
        (getNat st.redis (.loginAttempts ip) now).getD 0 < 10 →
        User.findByEmail db email = some u →
        u.isLocked now = false →
        u.isActive = true →
        u.validatePassword password = true →
        (AuthController.login cfg db st email password ip now).2.1
          = dbUpdateUser db (u.recordLoginAttempt true ip now))
    ∧ (∀ (u : User) (ip : String) (t1 t2 t3 t4 t5 : Nat),
        u.failedLoginAttempts = 0 → u.lockedUntil = none →
        (failN u ip [t1, t2, t3, t4]).lockedUntil = none
        ∧ (∀ n, (failN u ip [t1, t2, t3, t4]).isLocked n = false)
        ∧ User.failedLoginAttempts
            ((failN u ip [t1, t2, t3, t4]).recordLoginAttempt true ip t5) = 0
        ∧ User.lockedUntil
            ((failN u ip [t1, t2, t3, t4]).recordLoginAttempt true ip t5) = none) := by
  refine ⟨?_, ?_, ?_⟩
  · intro u ip now
    simp [User.recordLoginAttempt]
  · intro cfg db st email password ip now u hrate hfind hlock hactive hpw
    rw [login_success cfg db st email password ip now u hrate hfind hlock hactive hpw]
  · intro u ip t1 t2 t3 t4 t5 h0 hl
    have hmid : (failN u ip [t1, t2, t3, t4]).lockedUntil = none := by
      simp [failN, User.recordLoginAttempt, h0, hl]
    refine ⟨hmid, ?_, ?_, ?_⟩
    · intro n
      simp [User.isLocked, hmid]
    · simp [User.recordLoginAttempt]
    · simp [User.recordLoginAttempt]

/-- Witness for C4: four failures at times 10..13 then a success at 14 on a
concrete account leave the lock disengaged and the counter at 0, and the
stored row after the successful fifth login records time 14 and the client
address. -/
theorem success_resets_lockout_counter_witness :
    User.failedLoginAttempts
      ((failN ⟨1, "e@x", "u", bcryptHash "pw", true, false, 0, none, none, none, none,
        none⟩ "ip" [10, 11, 12, 13]).recordLoginAttempt true "ip" 14) = 0
    ∧ User.lockedUntil
      ((failN ⟨1, "e@x", "u", bcryptHash "pw", true, false, 0, none, none, none, none,
        none⟩ "ip" [10, 11, 12, 13]).recordLoginAttempt true "ip" 14) = none
    ∧ (AuthController.login ⟨604800⟩
        [⟨1, "e@x", "u", bcryptHash "pw", true, false, 4, none, none, some "ip",
          none, none⟩] ⟨⟨true, []⟩, []⟩ "e@x" "pw" "ip" 14).2.1
      = [⟨1, "e@x", "u", bcryptHash "pw", true, false, 0, none, some 14, some "ip",
          none, none⟩] := by
  have h := success_resets_lockout_counter
  refine ⟨?_, ?_, ?_⟩
  · exact (h.2.2 ⟨1, "e@x", "u", bcryptHash "pw", true, false, 0, none, none, none,
      none, none⟩ "ip" 10 11 12 13 14 rfl rfl).2.2.1
  · exact (h.2.2 ⟨1, "e@x", "u", bcryptHash "pw", true, false, 0, none, none, none,
      none, none⟩ "ip" 10 11 12 13 14 rfl rfl).2.2.2
  · exact (h.2.1 ⟨604800⟩
      [⟨1, "e@x", "u", bcryptHash "pw", true, false, 4, none, none, some "ip",
        none, none⟩] ⟨⟨true, []⟩, []⟩ "e@x" "pw" "ip" 14
      ⟨1, "e@x", "u", bcryptHash "pw", true, false, 4, none, none, some "ip",
        none, none⟩ (by decide) (by decide) (by decide) (by decide)
      (by decide)).trans (by decide)

/-- C10: the login failure response for an unknown email is identical — same
status, message and error code — to the response for a known email with a
wrong password; both are the INVALID_CREDENTIALS response, so a caller
cannot distinguish the two cases. -/
theorem unknown_email_and_wrong_password_indistinguishable
    (cfg cfg2 : Config) (db db2 : Db) (st st2 : St)
    (email1 pw1 ip1 email2 pw2 ip2 : String) (now1 now2 : Nat) (u : User)
    (hrate1 : (getNat st.redis (.loginAttempts ip1) now1).getD 0 < 10)
    (hfind1 : User.findByEmail db email1 = none)
    (hrate2 : (getNat st2.redis (.loginAttempts ip2) now2).getD 0 < 10)
    (hfind2 : User.findByEmail db2 email2 = some u)
    (hlock : u.isLocked now2 = false)
    (hactive : u.isActive = true)
    (hpw : u.validatePassword pw2 = false) :
    (AuthController.login cfg db st email1 pw1 ip1 now1).1
      = (AuthController.login cfg2 db2 st2 email2 pw2 ip2 now2).1
    ∧ (AuthController.login cfg db st email1 pw1 ip1 now1).1
      = .err ⟨401, "Invalid credentials", "INVALID_CREDENTIALS"⟩ := by
  rw [login_unknown_email cfg db st email1 pw1 ip1 now1 hrate1 hfind1,
    login_wrong_password cfg2 db2 st2 email2 pw2 ip2 now2 u hrate2 hfind2 hlock
      hactive hpw]
  exact ⟨rfl, rfl⟩

/-- Witness for C10: a concrete unknown-email run and a concrete
wrong-password run produce the same INVALID_CREDENTIALS response. -/
theorem unknown_email_and_wrong_password_indistinguishable_witness :
    (AuthController.login ⟨604800⟩ [] ⟨⟨true, []⟩, []⟩ "ghost@x" "pw" "ip" 0).1
      = (AuthController.login ⟨604800⟩
          [⟨1, "e@x", "u", bcryptHash "pw", true, false, 0, none, none, none,
            none, none⟩] ⟨⟨true, []⟩, []⟩ "e@x" "wrong" "ip" 0).1
    ∧ (AuthController.login ⟨604800⟩ [] ⟨⟨true, []⟩, []⟩ "ghost@x" "pw" "ip" 0).1
      = .err ⟨401, "Invalid credentials", "INVALID_CREDENTIALS"⟩ :=
  unknown_email_and_wrong_password_indistinguishable ⟨604800⟩ ⟨604800⟩ []
    [⟨1, "e@x", "u", bcryptHash "pw", true, false, 0, none, none, none, none, none⟩]
    ⟨⟨true, []⟩, []⟩ ⟨⟨true, []⟩, []⟩ "ghost@x" "pw" "ip" "e@x" "wrong" "ip" 0 0
    ⟨1, "e@x", "u", bcryptHash "pw", true, false, 0, none, none, none, none, none⟩
    (by decide) (by decide) (by decide) (by decide) (by decide) (by decide)
    (by decide)

/-- RedisManager.get on a disconnected store is a miss for every key. -/
theorem rget_disconnected (es : List Entry) (k : CacheKey) (n : Nat) :
    Redis.rget ⟨false, es⟩ k n = none := by
  simp [Redis.rget]

/-- C7: with the key-value store unreachable, an unserved cache read is a
miss (RedisManager.get returns null), the counter therefore reads as absent
(zero), and neither login nor register can return its rate-limit rejection —
the limiter fails open. -/
theorem rate_limiter_fails_open
    (cfg : Config) (db : Db) (es : List Entry) (tr : List Ev)
    (email username password ip : String) (newId now : Nat) :
    (∀ (k : CacheKey) (n : Nat), Redis.rget ⟨false, es⟩ k n = none)
    ∧ (AuthController.login cfg db ⟨⟨false, es⟩, tr⟩ email password ip now).1
        ≠ .err ⟨429, "Too many login attempts. Please try again later.",
            "LOGIN_RATE_LIMIT"⟩
    ∧ (AuthController.register cfg db ⟨⟨false, es⟩, tr⟩ email username password ip
        newId now).1
        ≠ .err ⟨429, "Too many registration attempts. Please try again later.",
            "REGISTRATION_RATE_LIMIT"⟩ := by
  have hget : ∀ (k : CacheKey) (n : Nat), Redis.rget ⟨false, es⟩ k n = none := by
    intro k n
    simp [Redis.rget]
  have hcnt : ∀ (k : CacheKey) (n : Nat), getNat ⟨false, es⟩ k n = none := by
    intro k n
    simp [getNat, hget]
  refine ⟨hget, ?_, ?_⟩
  · unfold AuthController.login
    simp only [hcnt, Option.getD_none, Nat.le_zero, OfNat.ofNat_ne_zero,
      if_false, reduceIte]
    cases hf : User.findByEmail db email with
    | none => simp
    | some u =>
      simp only []
      by_cases hl : u.isLocked now
      · simp [hl]
      · simp only [hl, if_false, Bool.false_eq_true, reduceIte]
        by_cases ha : u.isActive = false
        · simp [ha]
        · simp only [ha, if_false, reduceIte]
          by_cases hp : u.validatePassword password = false
          · simp [hp]
          · simp [hp]
  · unfold AuthController.register
    simp only [hcnt, Option.getD_none, Nat.le_zero, OfNat.ofNat_ne_zero,
      if_false, reduceIte]
    cases hf : List.find? (fun u => u.email == lowerStr email || u.username == username)
        db with
    | none => simp
    | some u => simp

/-- Witness for C7: with a disconnected store holding a saturated counter,
a concrete login still is not rate limited (it fails with
INVALID_CREDENTIALS instead, the store being unreadable). -/
theorem rate_limiter_fails_open_witness :
    (AuthController.login ⟨604800⟩ [] ⟨⟨false,
        [⟨.loginAttempts "ip", .num 99, 5000⟩]⟩, []⟩ "ghost@x" "pw" "ip" 0).1
      ≠ .err ⟨429, "Too many login attempts. Please try again later.",
          "LOGIN_RATE_LIMIT"⟩ :=
  (rate_limiter_fails_open ⟨604800⟩ [] [⟨.loginAttempts "ip", .num 99, 5000⟩] []
    "ghost@x" "u" "pw" "ip" 7 0).2.1

/-! Lemmas about the fixed-window rate limiter. -/

theorem gate_allows (threshold : Nat) (k : CacheKey) (st : St) (now c : Nat)
    (hc : (getNat st.redis k now).getD 0 = c) (h : c < threshold) :
    fixedWindowGate threshold k st now = (true, st.set k (.num (c + 1)) 3600 now) := by
  simp [fixedWindowGate, hc, Nat.not_le.mpr h]

theorem gate_rejects (threshold : Nat) (k : CacheKey) (st : St) (now c : Nat)
    (hc : (getNat st.redis k now).getD 0 = c) (h : threshold ≤ c) :
    fixedWindowGate threshold k st now = (false, st) := by
  simp [fixedWindowGate, hc, h]

theorem counter_after_set (st : St) (hconn : st.redis.conn = true)
    (k : CacheKey) (v now : Nat) :
    getNat (st.set k (.num v) 3600 now).redis k now = some v := by
  unfold getNat Redis.rget
  have hc : (st.set k (.num v) 3600 now).redis.conn = true := by
    simp only [St.set]
    rw [Redis.conn_rset]
    exact hconn
  rw [hc, if_pos rfl]
  simp only [St.set]
  rw [Redis.lookup_rset_self _ hconn]
  simp

theorem run_allows (threshold : Nat) (k : CacheKey) (now : Nat) :
    ∀ (m : Nat) (st : St) (c : Nat), st.redis.conn = true →
    (getNat st.redis k now).getD 0 = c → c + m ≤ threshold →
    (fixedWindowRun threshold k now m st).1 = List.replicate m true
    ∧ (getNat (fixedWindowRun threshold k now m st).2.redis k now).getD 0 = c + m
    ∧ (fixedWindowRun threshold k now m st).2.redis.conn = true := by
  intro m
  induction m with
  | zero =>
    intro st c hconn hc _
    exact ⟨rfl, by simpa using hc, hconn⟩
  | succ m ih =>
    intro st c hconn hc hle
    have hcm : c < threshold := by omega
    have hg := gate_allows threshold k st now c hc hcm
    have hconn2 : (st.set k (.num (c + 1)) 3600 now).redis.conn = true := by
      simp only [St.set]
      rw [Redis.conn_rset]
      exact hconn
    have hcnt : (getNat (st.set k (.num (c + 1)) 3600 now).redis k now).getD 0
        = c + 1 := by
      rw [counter_after_set st hconn]
      rfl
    have hrec := ih (st.set k (.num (c + 1)) 3600 now) (c + 1) hconn2 hcnt (by omega)
    refine ⟨?_, ?_, ?_⟩
    · simp only [fixedWindowRun, hg]
      rw [hrec.1]
      rfl
    · simp only [fixedWindowRun, hg]
      rw [hrec.2.1]
      omega
    · simp only [fixedWindowRun, hg]
      exact hrec.2.2

theorem fixedWindowRun_succ_back (threshold : Nat) (k : CacheKey) (now : Nat) :
    ∀ (n : Nat) (st : St),
    fixedWindowRun threshold k now (n + 1) st
      = ((fixedWindowRun threshold k now n st).1
          ++ [(fixedWindowGate threshold k (fixedWindowRun threshold k now n st).2 now).1],
         (fixedWindowGate threshold k (fixedWindowRun threshold k now n st).2 now).2) := by
  intro n
  induction n with
  | zero =>
    intro st
    rfl
  | succ n ih =>
    intro st
    have hl : fixedWindowRun threshold k now (n + 1 + 1) st
        = ((fixedWindowGate threshold k st now).1
            :: (fixedWindowRun threshold k now (n + 1)
                (fixedWindowGate threshold k st now).2).1,
           (fixedWindowRun threshold k now (n + 1)
                (fixedWindowGate threshold k st now).2).2) := rfl
    rw [hl, ih]
    rfl

/-- C5: for any class with threshold N > 0, a burst of N + 1 requests in
rapid succession through the shared fixed-window check yields N allowed
requests and an (N+1)th rejection, and once the counter entry's TTL deadline
has passed the counter reads as absent and a new request is allowed.
Instantiated end-to-end on registration (threshold 3): from a fresh state,
of four concurrent register calls the first three succeed and the fourth is
rejected with REGISTRATION_RATE_LIMIT, and a fifth call one hour later (the
window TTL) is allowed again. -/
theorem rate_limit_threshold_exact :
    (∀ (threshold : Nat) (k : CacheKey) (now : Nat) (st : St),
      0 < threshold → st.redis.conn = true →
      (getNat st.redis k now).getD 0 = 0 →
      (fixedWindowRun threshold k now (threshold + 1) st).1
        = List.replicate threshold true ++ [false])
    ∧ (∀ (threshold : Nat) (k : CacheKey) (st : St) (c d m : Nat),
        0 < threshold →
        st.redis.entries.find? (fun e => e.key == k) = some ⟨k, .num c, d⟩ →
        d ≤ m →
        (fixedWindowGate threshold k st m).1 = true)
    ∧ ((AuthController.register ⟨604800⟩ [] ⟨⟨true, []⟩, []⟩ "a@x" "ua" "pw" "ip" 1 0).1
        = .ok (User.generateJWT ⟨1, "a@x", "ua", bcryptHash "pw", true, false, 0,
            none, none, none, none, none⟩ 604800 0)
      ∧ (AuthController.register ⟨604800⟩
          (AuthController.register ⟨604800⟩ [] ⟨⟨true, []⟩, []⟩ "a@x" "ua" "pw" "ip" 1 0).2.1
          (AuthController.register ⟨604800⟩ [] ⟨⟨true, []⟩, []⟩ "a@x" "ua" "pw" "ip" 1 0).2.2
          "b@x" "ub" "pw" "ip" 2 0).1
        = .ok (User.generateJWT ⟨2, "b@x", "ub", bcryptHash "pw", true, false, 0,
            none, none, none, none, none⟩ 604800 0)
      ∧ (AuthController.register ⟨604800⟩
          (AuthController.register ⟨604800⟩
            (AuthController.register ⟨604800⟩ [] ⟨⟨true, []⟩, []⟩ "a@x" "ua" "pw" "ip" 1 0).2.1
            (AuthController.register ⟨604800⟩ [] ⟨⟨true, []⟩, []⟩ "a@x" "ua" "pw" "ip" 1 0).2.2
            "b@x" "ub" "pw" "ip" 2 0).2.1
          (AuthController.register ⟨604800⟩
            (AuthController.register ⟨604800⟩ [] ⟨⟨true, []⟩, []⟩ "a@x" "ua" "pw" "ip" 1 0).2.1
            (AuthController.register ⟨604800⟩ [] ⟨⟨true, []⟩, []⟩ "a@x" "ua" "pw" "ip" 1 0).2.2
            "b@x" "ub" "pw" "ip" 2 0).2.2
          "c@x" "uc" "pw" "ip" 3 0).1
        = .ok (User.generateJWT ⟨3, "c@x", "uc", bcryptHash "pw", true, false, 0,
            none, none, none, none, none⟩ 604800 0)
      ∧ (AuthController.register ⟨604800⟩
          (AuthController.register ⟨604800⟩
            (AuthController.register ⟨604800⟩
              (AuthController.register ⟨604800⟩ [] ⟨⟨true, []⟩, []⟩ "a@x" "ua" "pw" "ip" 1 0).2.1
              (AuthController.register ⟨604800⟩ [] ⟨⟨true, []⟩, []⟩ "a@x" "ua" "pw" "ip" 1 0).2.2
              "b@x" "ub" "pw" "ip" 2 0).2.1
            (AuthController.register ⟨604800⟩
              (AuthController.register ⟨604800⟩ [] ⟨⟨true, []⟩, []⟩ "a@x" "ua" "pw" "ip" 1 0).2.1
              (AuthController.register ⟨604800⟩ [] ⟨⟨true, []⟩, []⟩ "a@x" "ua" "pw" "ip" 1 0).2.2
              "b@x" "ub" "pw" "ip" 2 0).2.2
            "c@x" "uc" "pw" "ip" 3 0).2.1
          (AuthController.register ⟨604800⟩
            (AuthController.register ⟨604800⟩
              (AuthController.register ⟨604800⟩ [] ⟨⟨true, []⟩, []⟩ "a@x" "ua" "pw" "ip" 1 0).2.1
              (AuthController.register ⟨604800⟩ [] ⟨⟨true, []⟩, []⟩ "a@x" "ua" "pw" "ip" 1 0).2.2
              "b@x" "ub" "pw" "ip" 2 0).2.1
            (AuthController.register ⟨604800⟩
              (AuthController.register ⟨604800⟩ [] ⟨⟨true, []⟩, []⟩ "a@x" "ua" "pw" "ip" 1 0).2.1
              (AuthController.register ⟨604800⟩ [] ⟨⟨true, []⟩, []⟩ "a@x" "ua" "pw" "ip" 1 0).2.2
              "b@x" "ub" "pw" "ip" 2 0).2.2
            "c@x" "uc" "pw" "ip" 3 0).2.2
          "d@x" "ud" "pw" "ip" 4 0).1
        = .err ⟨429, "Too many registration attempts. Please try again later.",
            "REGISTRATION_RATE_LIMIT"⟩
      ∧ (AuthController.register ⟨604800⟩
          (AuthController.register ⟨604800⟩
            (AuthController.register ⟨604800⟩
              (AuthController.register ⟨604800⟩ [] ⟨⟨true, []⟩, []⟩ "a@x" "ua" "pw" "ip" 1 0).2.1
              (AuthController.register ⟨604800⟩ [] ⟨⟨true, []⟩, []⟩ "a@x" "ua" "pw" "ip" 1 0).2.2
              "b@x" "ub" "pw" "ip" 2 0).2.1
            (AuthController.register ⟨604800⟩
              (AuthController.register ⟨604800⟩ [] ⟨⟨true, []⟩, []⟩ "a@x" "ua" "pw" "ip" 1 0).2.1
              (AuthController.register ⟨604800⟩ [] ⟨⟨true, []⟩, []⟩ "a@x" "ua" "pw" "ip" 1 0).2.2
              "b@x" "ub" "pw" "ip" 2 0).2.2
            "c@x" "uc" "pw" "ip" 3 0).2.1
          (AuthController.register ⟨604800⟩
            (AuthController.register ⟨604800⟩
              (AuthController.register ⟨604800⟩ [] ⟨⟨true, []⟩, []⟩ "a@x" "ua" "pw" "ip" 1 0).2.1
              (AuthController.register ⟨604800⟩ [] ⟨⟨true, []⟩, []⟩ "a@x" "ua" "pw" "ip" 1 0).2.2
              "b@x" "ub" "pw" "ip" 2 0).2.1
            (AuthController.register ⟨604800⟩
              (AuthController.register ⟨604800⟩ [] ⟨⟨true, []⟩, []⟩ "a@x" "ua" "pw" "ip" 1 0).2.1
              (AuthController.register ⟨604800⟩ [] ⟨⟨true, []⟩, []⟩ "a@x" "ua" "pw" "ip" 1 0).2.2
              "b@x" "ub" "pw" "ip" 2 0).2.2
            "c@x" "uc" "pw" "ip" 3 0).2.2
          "e@x" "ue" "pw" "ip" 5 3600).1
        = .ok (User.generateJWT ⟨5, "e@x", "ue", bcryptHash "pw", true, false, 0,
            none, none, none, none, none⟩ 604800 3600)) := by
  refine ⟨?_, ?_, ?_⟩
  · intro threshold k now st hpos hconn hstart
    have hrun := run_allows threshold k now threshold st 0 hconn hstart (by omega)
    have hrej := gate_rejects threshold k (fixedWindowRun threshold k now threshold st).2
      now threshold (by simpa using hrun.2.1) (le_refl threshold)
    have h1 : (fixedWindowRun threshold k now (threshold + 1) st).1
        = (fixedWindowRun threshold k now threshold st).1
          ++ [(fixedWindowGate threshold k
                (fixedWindowRun threshold k now threshold st).2 now).1] := by
      rw [fixedWindowRun_succ_back]
    rw [h1, hrun.1, hrej]
  · intro threshold k st c d m hpos hfind hle
    have hcnt : (getNat st.redis k m).getD 0 = 0 := by
      have hnl : ¬ m < d := by omega
      by_cases hconn : st.redis.conn = true
      · simp [getNat, Redis.rget, Redis.lookup, hconn, hfind, hnl]
      · simp only [Bool.not_eq_true] at hconn
        simp [getNat, Redis.rget, hconn]
    rw [(gate_allows threshold k st m 0 hcnt hpos)]
  · exact ⟨by decide, by decide, by decide, by decide, by decide⟩

/-- Witness for C5: with threshold 3 on the registration key, a burst of four
requests from a fresh state is allowed, allowed, allowed, rejected; and once
the counter entry's deadline (3600) has passed, the gate allows again. -/
theorem rate_limit_threshold_exact_witness :
    (fixedWindowRun 3 (.registration "ip") 0 4 ⟨⟨true, []⟩, []⟩).1
      = [true, true, true, false]
    ∧ (fixedWindowGate 3 (.registration "ip")
        ⟨⟨true, [⟨.registration "ip", .num 3, 3600⟩]⟩, []⟩ 3600).1 = true := by
  have h := rate_limit_threshold_exact
  constructor
  · exact (h.1 3 (.registration "ip") 0 ⟨⟨true, []⟩, []⟩ (by decide) rfl
      (by decide)).trans (by decide)
  · exact h.2.1 3 (.registration "ip")
      ⟨⟨true, [⟨.registration "ip", .num 3, 3600⟩]⟩, []⟩ 3 3600 3600 (by decide)
      (by decide) (by decide)

/-! Branch lemmas for changePassword and refreshToken (cache-hit path of
User.findById). -/

theorem changePassword_success (cfg : Config) (db : Db) (st : St)
    (uid : Nat) (cur newp : String) (now : Nat) (u : User)
    (hfid : st.redis.rget (.user uid) now = some (.acct u))
    (hpw : u.validatePassword cur = true) :
    AuthController.changePassword cfg db st uid cur newp now
      = (.ok (u.generateJWT cfg.jwtExpiresIn now),
         dbUpdateUser db { u with passwordHash := bcryptHash newp,
                                  passwordResetToken := none,
                                  passwordResetExpires := none },
         ((((st.write).del (.user u.id)).delPat (.exact (.session u.id))).delPat
             (.exact (.userSession u.id))).set
           (.session u.id) (.tok (u.generateJWT cfg.jwtExpiresIn now))
           (7 * 24 * 60 * 60) now) := by
  simp [AuthController.changePassword, User.findById, hfid, hpw]

theorem refreshToken_success (cfg : Config) (db : Db) (st : St)
    (uid : Nat) (t : Token) (now : Nat) (u : User)
    (hfid : st.redis.rget (.user uid) now = some (.acct u))
    (hactive : u.isActive = true)
    (hpos : now < t.exp) :
    AuthController.refreshToken cfg db st uid (some t) now
      = (.ok (u.generateJWT cfg.jwtExpiresIn now), db,
         (st.set (.session u.id) (.tok (u.generateJWT cfg.jwtExpiresIn now))
             (7 * 24 * 60 * 60) now).set
           (.blacklist t) (.flag true) (t.exp - now) now) := by
  have hcond : (0 : Int) < (t.exp : Int) - (now : Int) := by omega
  have h1 : ((t.exp : Int) - (now : Int)).toNat = t.exp - now := by omega
  simp [AuthController.refreshToken, User.findById, hfid, hactive, hcond, h1]

/-- C2 counterexample: a concrete successful login over an existing canonical
session token (unexpired) leaves that previous token without any Revocation
Entry and performs no blacklist insertion and no deletion of the
canonical-session record at all — the record is merely overwritten — so the
claimed revoke-before-issue behaviour does not hold on the login path. -/
theorem reissue_revokes_previous_counterexample :
    (AuthController.login ⟨604800⟩
        [⟨1, "e@x", "u", bcryptHash "pw", true, false, 0, none, none, none, none, none⟩]
        ⟨⟨true, [⟨.session 1, .tok ⟨1, "e@x", "u", true, false, 0, 604800, true⟩,
          604800⟩]⟩, []⟩ "e@x" "pw" "ip" 100).2.2.redis.lookup
        (.blacklist ⟨1, "e@x", "u", true, false, 0, 604800, true⟩) 100 = none
    ∧ (AuthController.login ⟨604800⟩
        [⟨1, "e@x", "u", bcryptHash "pw", true, false, 0, none, none, none, none, none⟩]
        ⟨⟨true, [⟨.session 1, .tok ⟨1, "e@x", "u", true, false, 0, 604800, true⟩,
          604800⟩]⟩, []⟩ "e@x" "pw" "ip" 100).2.2.trace
      = [.dbWrite, .cdel (.user 1), .cdel (.loginAttempts "ip"),
         .cset (.session 1)
           (.tok (User.generateJWT ⟨1, "e@x", "u", bcryptHash "pw", true, false, 0,
             none, none, none, none, none⟩ 604800 100)) 604800,
         .cset (.userSession 1) (.payload "ip") 604800] := by
  exact ⟨by decide, by decide⟩

/-- C2 (amended): only token refresh inserts a Revocation Entry for the
previous token, and it does so after the new token is issued and stored; a
successful login performs no revocation at all — its effect trace contains
no blacklist insertion and no deletion of the canonical-session record
(which is overwritten in place), and every token's revocation state is left
unchanged; password change deletes the canonical-session records before
storing the new token but inserts no Revocation Entry for the old token. -/
theorem reissue_revocation_behaviour_by_path :
    (∀ (cfg : Config) (db : Db) (st : St) (email password ip : String)
        (now : Nat) (u : User),
      (getNat st.redis (.loginAttempts ip) now).getD 0 < 10 →
      User.findByEmail db email = some u →
      u.isLocked now = false →
      u.isActive = true →
      u.validatePassword password = true →
      (AuthController.login cfg db st email password ip now).2.2.trace
        = st.trace ++ [.dbWrite, .cdel (.user u.id), .cdel (.loginAttempts ip),
            .cset (.session u.id) (.tok (u.generateJWT cfg.jwtExpiresIn now))
              (7 * 24 * 60 * 60),
            .cset (.userSession u.id) (.payload ip) (7 * 24 * 60 * 60)]
      ∧ ∀ (tb : Token) (n : Nat),
          (AuthController.login cfg db st email password ip now).2.2.redis.lookup
            (.blacklist tb) n = st.redis.lookup (.blacklist tb) n)
    ∧ (∀ (cfg : Config) (db : Db) (st : St) (uid : Nat) (cur newp : String)
        (now : Nat) (u : User),
      st.redis.rget (.user uid) now = some (.acct u) →
      u.validatePassword cur = true →
      (AuthController.changePassword cfg db st uid cur newp now).2.2.trace
        = st.trace ++ [.dbWrite, .cdel (.user u.id),
            .cdelPat (.exact (.session u.id)), .cdelPat (.exact (.userSession u.id)),
            .cset (.session u.id) (.tok (u.generateJWT cfg.jwtExpiresIn now))
              (7 * 24 * 60 * 60)]
      ∧ ∀ (tb : Token) (n : Nat),
          (AuthController.changePassword cfg db st uid cur newp now).2.2.redis.lookup
            (.blacklist tb) n = st.redis.lookup (.blacklist tb) n)
    ∧ (∀ (cfg : Config) (db : Db) (st : St) (uid : Nat) (t : Token)
        (now : Nat) (u : User),
      st.redis.rget (.user uid) now = some (.acct u) →
      u.isActive = true →
      now < t.exp →
      (AuthController.refreshToken cfg db st uid (some t) now).2.2.trace
        = st.trace ++ [.cset (.session u.id)
              (.tok (u.generateJWT cfg.jwtExpiresIn now)) (7 * 24 * 60 * 60),
            .cset (.blacklist t) (.flag true) (t.exp - now)]) := by
  refine ⟨?_, ?_, ?_⟩
  · intro cfg db st email password ip now u hrate hfind hlock hactive hpw
    rw [login_success cfg db st email password ip now u hrate hfind hlock hactive hpw]
    constructor
    · simp [St.write, St.del, St.set]
    · intro tb n
      simp only [St.write, St.del, St.set]
      rw [Redis.lookup_rset_other _ _ _ _ _ _ (by simp)]
      rw [Redis.lookup_rset_other _ _ _ _ _ _ (by simp)]
      rw [Redis.lookup_rdel_other _ _ _ (by simp)]
      rw [Redis.lookup_rdel_other _ _ _ (by simp)]
  · intro cfg db st uid cur newp now u hfid hpw
    rw [changePassword_success cfg db st uid cur newp now u hfid hpw]
    constructor
    · simp [St.write, St.del, St.delPat, St.set]
    · intro tb n
      simp only [St.write, St.del, St.delPat, St.set]
      rw [Redis.lookup_rset_other _ _ _ _ _ _ (by simp)]
      rw [Redis.lookup_delPattern_other _ _ _ _ (by simp [Pat.matches])]
      rw [Redis.lookup_delPattern_other _ _ _ _ (by simp [Pat.matches])]
      rw [Redis.lookup_rdel_other _ _ _ (by simp)]
  · intro cfg db st uid t now u hfid hactive hpos
    rw [refreshToken_success cfg db st uid t now u hfid hactive hpos]
    simp [St.set]

/-- Witness for C2's amended theorem at concrete inputs on all three paths. -/
theorem reissue_revocation_behaviour_by_path_witness :
    (AuthController.login ⟨604800⟩
        [⟨1, "e@x", "u", bcryptHash "pw", true, false, 0, none, none, none, none, none⟩]
        ⟨⟨true, []⟩, []⟩ "e@x" "pw" "ip" 0).2.2.trace
      = [.dbWrite, .cdel (.user 1), .cdel (.loginAttempts "ip"),
         .cset (.session 1)
           (.tok (User.generateJWT ⟨1, "e@x", "u", bcryptHash "pw", true, false, 0,
             none, none, none, none, none⟩ 604800 0)) 604800,
         .cset (.userSession 1) (.payload "ip") 604800]
    ∧ (AuthController.refreshToken ⟨604800⟩ []
        ⟨⟨true, [⟨.user 1, .acct ⟨1, "e@x", "u", bcryptHash "pw", true, false, 0,
          none, none, none, none, none⟩, 900⟩]⟩, []⟩ 1
        (some ⟨1, "e@x", "u", true, false, 0, 500, true⟩) 100).2.2.trace
      = [.cset (.session 1)
           (.tok (User.generateJWT ⟨1, "e@x", "u", bcryptHash "pw", true, false, 0,
             none, none, none, none, none⟩ 604800 100)) 604800,
         .cset (.blacklist ⟨1, "e@x", "u", true, false, 0, 500, true⟩)
           (.flag true) 400] := by
  have h := reissue_revocation_behaviour_by_path
  constructor
  · exact ((h.1 ⟨604800⟩
      [⟨1, "e@x", "u", bcryptHash "pw", true, false, 0, none, none, none, none, none⟩]
      ⟨⟨true, []⟩, []⟩ "e@x" "pw" "ip" 0
      ⟨1, "e@x", "u", bcryptHash "pw", true, false, 0, none, none, none, none, none⟩
      (by decide) (by decide) (by decide) (by decide) (by decide)).1).trans (by decide)
  · exact (h.2.2 ⟨604800⟩ []
      ⟨⟨true, [⟨.user 1, .acct ⟨1, "e@x", "u", bcryptHash "pw", true, false, 0,
        none, none, none, none, none⟩, 900⟩]⟩, []⟩ 1
      ⟨1, "e@x", "u", true, false, 0, 500, true⟩ 100
      ⟨1, "e@x", "u", bcryptHash "pw", true, false, 0, none, none, none, none, none⟩
      (by decide) (by decide) (by decide)).trans (by decide)

theorem register_success (cfg : Config) (db : Db) (st : St)
    (email username password ip : String) (newId now : Nat)
    (hrate : (getNat st.redis (.registration ip) now).getD 0 < 3)
    (hdup : List.find? (fun u => u.email == lowerStr email || u.username == username)
        db = none) :
    AuthController.register cfg db st email username password ip newId now
      = (.ok (User.generateJWT ⟨newId, lowerStr email, username,
            bcryptHash password, true, false, 0, none, none, none, none, none⟩
            cfg.jwtExpiresIn now),
         db ++ [⟨newId, lowerStr email, username, bcryptHash password, true, false,
            0, none, none, none, none, none⟩],
         ((st.write).set (.registration ip)
             (.num ((getNat st.redis (.registration ip) now).getD 0 + 1)) 3600 now).set
           (.session newId) (.tok (User.generateJWT ⟨newId, lowerStr email, username,
             bcryptHash password, true, false, 0, none, none, none, none, none⟩
             cfg.jwtExpiresIn now)) (7 * 24 * 60 * 60) now) := by
  simp [AuthController.register, hdup, Nat.not_le.mpr hrate]

/-- C9 counterexample: with the expiry policy configured to 3600 s, a
successful login at time 0 issues a token expiring at 3600 but stores the
canonical session record with the fixed 7-day TTL: the record is still live
at time 4000, after the token it holds has expired, so the session TTL is
not the token's remaining lifetime at issuance. -/
theorem issue_session_ttl_counterexample :
    (AuthController.login ⟨3600⟩
        [⟨1, "e@x", "u", bcryptHash "pw", true, false, 0, none, none, none, none, none⟩]
        ⟨⟨true, []⟩, []⟩ "e@x" "pw" "ip" 0).2.2.redis.lookup (.session 1) 4000
      = some (.tok (User.generateJWT ⟨1, "e@x", "u", bcryptHash "pw", true, false, 0,
          none, none, none, none, none⟩ 3600 0))
    ∧ Token.exp (User.generateJWT ⟨1, "e@x", "u", bcryptHash "pw", true, false, 0,
        none, none, none, none, none⟩ 3600 0) = 3600 := by
  exact ⟨by decide, by decide⟩

/-- C9 (amended): issue — token generation at login and registration —
creates a signed token whose expiry is the configured policy's lifetime from
issuance (default 7 days) and records it as the canonical session under
session:{accountId} with a fixed TTL of 7 days (604800 s); that TTL equals
the token's remaining lifetime at issuance exactly when the expiry policy is
the default 7 days. -/
theorem issue_records_canonical_session :
    (({} : Config).jwtExpiresIn = 7 * 24 * 60 * 60)
    ∧ (∀ (u : User) (e now : Nat),
        (u.generateJWT e now).exp = now + e ∧ (u.generateJWT e now).sig = true
        ∧ (u.generateJWT e now).userId = u.id)
    ∧ (∀ (cfg : Config) (db : Db) (st : St) (email password ip : String)
        (now : Nat) (u : User),
      st.redis.conn = true →
      (getNat st.redis (.loginAttempts ip) now).getD 0 < 10 →
      User.findByEmail db email = some u →
      u.isLocked now = false →
      u.isActive = true →
      u.validatePassword password = true →
      (∀ n, (AuthController.login cfg db st email password ip now).2.2.redis.lookup
          (.session u.id) n
        = if n < now + 7 * 24 * 60 * 60
          then some (.tok (u.generateJWT cfg.jwtExpiresIn now)) else none)
      ∧ (cfg.jwtExpiresIn = 7 * 24 * 60 * 60 →
          now + 7 * 24 * 60 * 60 = (u.generateJWT cfg.jwtExpiresIn now).exp))
    ∧ (∀ (cfg : Config) (db : Db) (st : St) (email username password ip : String)
        (newId now : Nat),
      (getNat st.redis (.registration ip) now).getD 0 < 3 →
      List.find? (fun u => u.email == lowerStr email || u.username == username) db
        = none →
      (AuthController.register cfg db st email username password ip newId now).2.2.trace
        = st.trace ++ [.dbWrite,
            .cset (.registration ip)
              (.num ((getNat st.redis (.registration ip) now).getD 0 + 1)) 3600,
            .cset (.session newId) (.tok (User.generateJWT ⟨newId, lowerStr email,
              username, bcryptHash password, true, false, 0, none, none, none, none,
              none⟩ cfg.jwtExpiresIn now)) (7 * 24 * 60 * 60)]) := by
  refine ⟨rfl, ?_, ?_, ?_⟩
  · intro u e now
    exact ⟨rfl, rfl, rfl⟩
  · intro cfg db st email password ip now u hconn hrate hfind hlock hactive hpw
    rw [login_success cfg db st email password ip now u hrate hfind hlock hactive hpw]
    constructor
    · intro n
      simp only [St.write, St.del, St.set]
      rw [Redis.lookup_rset_other _ _ _ _ _ _ (by simp)]
      rw [Redis.lookup_rset_self]
      rw [Redis.conn_rdel, Redis.conn_rdel]
      exact hconn
    · intro hdef
      simp [User.generateJWT, hdef]
  · intro cfg db st email username password ip newId now hrate hdup
    rw [register_success cfg db st email username password ip newId now hrate hdup]
    simp [St.write, St.set]

/-- Witness for C9's amended theorem: concrete login under the default
7-day policy stores the canonical session with deadline 604800 holding the
freshly issued token, which then expires exactly at the record's deadline. -/
theorem issue_records_canonical_session_witness :
    (AuthController.login ⟨604800⟩
        [⟨1, "e@x", "u", bcryptHash "pw", true, false, 0, none, none, none, none, none⟩]
        ⟨⟨true, []⟩, []⟩ "e@x" "pw" "ip" 0).2.2.redis.lookup (.session 1) 604799
      = some (.tok (User.generateJWT ⟨1, "e@x", "u", bcryptHash "pw", true, false, 0,
          none, none, none, none, none⟩ 604800 0))
    ∧ (AuthController.login ⟨604800⟩
        [⟨1, "e@x", "u", bcryptHash "pw", true, false, 0, none, none, none, none, none⟩]
        ⟨⟨true, []⟩, []⟩ "e@x" "pw" "ip" 0).2.2.redis.lookup (.session 1) 604800
      = none := by
  have h := (issue_records_canonical_session.2.2.1 ⟨604800⟩
    [⟨1, "e@x", "u", bcryptHash "pw", true, false, 0, none, none, none, none, none⟩]
    ⟨⟨true, []⟩, []⟩ "e@x" "pw" "ip" 0
    ⟨1, "e@x", "u", bcryptHash "pw", true, false, 0, none, none, none, none, none⟩
    rfl (by decide) (by decide) (by decide) (by decide) (by decide)).1
  exact ⟨(h 604799).trans (by decide), (h 604800).trans (by decide)⟩

/-! Lemmas for the cache-invalidation layer (C8). -/

theorem lookup_foldl_delPattern (ps : List Pat) :
    ∀ (r : Redis), r.conn = true → ∀ (k : CacheKey) (n : Nat),
    (ps.foldl Redis.delPattern r).lookup k n
      = if ps.any (fun p => p.matches k) then none else r.lookup k n := by
  induction ps with
  | nil =>
    intro r _ k n
    simp
  | cons p ps ih =>
    intro r hconn k n
    have hconn2 : (r.delPattern p).conn = true := by
      rw [Redis.conn_delPattern]
      exact hconn
    have hstep : (p :: ps).foldl Redis.delPattern r
        = ps.foldl Redis.delPattern (r.delPattern p) := rfl
    rw [hstep, ih (r.delPattern p) hconn2 k n]
    cases hm : p.matches k with
    | false =>
      rw [Redis.lookup_delPattern_other r p k n hm]
      simp [List.any_cons, hm]
    | true =>
      cases hps : ps.any (fun q => q.matches k) with
      | true => simp [List.any_cons, hm, hps]
      | false =>
        simp only [List.any_cons, hm, hps, Bool.true_or, Bool.false_eq_true,
          if_false, if_true, reduceIte]
        exact Redis.lookup_delPattern_match r hconn p k n hm

/-- The six invalidation patterns declared by Todo.invalidateUserCache for a
user. -/
def invalidationPats (uid : Nat) : List Pat :=
  [.todosAll uid, .exact (.userCategories uid), .exact (.userTags uid),
   .exact (.overdueTodos uid), .upcomingAll uid, .exact (.userStats uid)]

theorem invalidateUserCache_redis (st : St) (uid : Nat) :
    (Todo.invalidateUserCache st uid).redis
      = (invalidationPats uid).foldl Redis.delPattern st.redis := rfl

theorem invalidateUserCache_trace (st : St) (uid : Nat) :
    (Todo.invalidateUserCache st uid).trace
      = st.trace ++ [.cdelPat (.todosAll uid), .cdelPat (.exact (.userCategories uid)),
          .cdelPat (.exact (.userTags uid)), .cdelPat (.exact (.overdueTodos uid)),
          .cdelPat (.upcomingAll uid), .cdelPat (.exact (.userStats uid))] := by
  simp [Todo.invalidateUserCache, St.delPat]

theorem invalidationPats_any (uid : Nat) (k : CacheKey) :
    (invalidationPats uid).any (fun p => p.matches k) = true
      ↔ ownedKey uid k = true := by
  cases k <;> simp [invalidationPats, Pat.matches, ownedKey]

theorem ownedKey_disjoint (a b : Nat) (k : CacheKey) (hne : ¬ b = a)
    (hb : ownedKey b k = true) : ownedKey a k = false := by
  cases k <;> simp_all [ownedKey] <;> omega

/-- C8: after a todo mutation for account A (Todo.update), the effect trace
is exactly the durable write followed by the six declared invalidations —
synchronous, after the write and before the response — every live cache
entry in A's key families is gone, every key outside A's families (in
particular every entry of any other account B ≠ A) is unchanged, and the
durable row is updated before the invalidation. -/
theorem todo_mutation_invalidates_owner_cache
    (tdb : List TodoRec) (st : St) (t : TodoRec) (u : TodoUpdate) (now : Nat)
    (hconn : st.redis.conn = true) (hne : u.isEmpty = false) :
    ((Todo.update tdb st t u now).1 = .ok (t.applyUpdate u now))
    ∧ ((Todo.update tdb st t u now).2.1
        = List.map (fun x => if x.id == t.id then t.applyUpdate u now else x) tdb)
    ∧ ((Todo.update tdb st t u now).2.2.trace
        = st.trace ++ [.dbWrite, .cdelPat (.todosAll t.userId),
            .cdelPat (.exact (.userCategories t.userId)),
            .cdelPat (.exact (.userTags t.userId)),
            .cdelPat (.exact (.overdueTodos t.userId)),
            .cdelPat (.upcomingAll t.userId),
            .cdelPat (.exact (.userStats t.userId))])
    ∧ (∀ (k : CacheKey) (n : Nat), ownedKey t.userId k = true →
        (Todo.update tdb st t u now).2.2.redis.lookup k n = none)
    ∧ (∀ (k : CacheKey) (n : Nat), ownedKey t.userId k = false →
        (Todo.update tdb st t u now).2.2.redis.lookup k n = st.redis.lookup k n)
    ∧ (∀ (b : Nat) (k : CacheKey) (n : Nat), ¬ b = t.userId → ownedKey b k = true →
        (Todo.update tdb st t u now).2.2.redis.lookup k n = st.redis.lookup k n) := by
  have hupd : Todo.update tdb st t u now
      = (.ok (t.applyUpdate u now),
         List.map (fun x => if x.id == t.id then t.applyUpdate u now else x) tdb,
         Todo.invalidateUserCache (st.write) t.userId) := by
    simp [Todo.update, hne]
  have hwconn : (st.write).redis.conn = true := hconn
  have hlook : ∀ (k : CacheKey) (n : Nat),
      (Todo.invalidateUserCache (st.write) t.userId).redis.lookup k n
        = if ownedKey t.userId k = true then none else st.redis.lookup k n := by
    intro k n
    rw [invalidateUserCache_redis, lookup_foldl_delPattern _ _ hwconn]
    by_cases h : ownedKey t.userId k = true
    · rw [if_pos ((invalidationPats_any t.userId k).mpr h), if_pos h]
    · have h2 : ¬ ((invalidationPats t.userId).any (fun p => p.matches k)) = true :=
        fun hc => h ((invalidationPats_any t.userId k).mp hc)
      rw [if_neg h2, if_neg h]
      rfl
  refine ⟨by rw [hupd], by rw [hupd], ?_, ?_, ?_, ?_⟩
  · rw [hupd]
    show (Todo.invalidateUserCache (st.write) t.userId).trace = _
    rw [invalidateUserCache_trace]
    simp [St.write]
  · intro k n hk
    rw [hupd]
    show (Todo.invalidateUserCache (st.write) t.userId).redis.lookup k n = none
    rw [hlook k n, if_pos hk]
  · intro k n hk
    rw [hupd]
    show (Todo.invalidateUserCache (st.write) t.userId).redis.lookup k n = _
    rw [hlook k n, if_neg (by simp [hk])]
  · intro b k n hbne hb
    have hk := ownedKey_disjoint t.userId b k hbne hb
    rw [hupd]
    show (Todo.invalidateUserCache (st.write) t.userId).redis.lookup k n = _
    rw [hlook k n, if_neg (by simp [hk])]

/-- Witness for C8 at a concrete state: updating user 1's todo empties the
listings/stats entries of user 1 and leaves user 2's intact. -/
theorem todo_mutation_invalidates_owner_cache_witness :
    ((Todo.update
        [⟨5, 1, "a", "", false, 1, "", none, none, [], 0⟩]
        ⟨⟨true, [⟨.todos 1 "p1", .payload "x", 900⟩, ⟨.userStats 1, .payload "s", 900⟩,
          ⟨.todos 2 "p1", .payload "y", 900⟩]⟩, []⟩
        ⟨5, 1, "a", "", false, 1, "", none, none, [], 0⟩
        { completed := some true } 100).2.2.redis.lookup (.todos 1 "p1") 100 = none)
    ∧ ((Todo.update
        [⟨5, 1, "a", "", false, 1, "", none, none, [], 0⟩]
        ⟨⟨true, [⟨.todos 1 "p1", .payload "x", 900⟩, ⟨.userStats 1, .payload "s", 900⟩,
          ⟨.todos 2 "p1", .payload "y", 900⟩]⟩, []⟩
        ⟨5, 1, "a", "", false, 1, "", none, none, [], 0⟩
        { completed := some true } 100).2.2.redis.lookup (.userStats 1) 100 = none)
    ∧ ((Todo.update
        [⟨5, 1, "a", "", false, 1, "", none, none, [], 0⟩]
        ⟨⟨true, [⟨.todos 1 "p1", .payload "x", 900⟩, ⟨.userStats 1, .payload "s", 900⟩,
          ⟨.todos 2 "p1", .payload "y", 900⟩]⟩, []⟩
        ⟨5, 1, "a", "", false, 1, "", none, none, [], 0⟩
        { completed := some true } 100).2.2.redis.lookup (.todos 2 "p1") 100
      = some (.payload "y")) := by
  have h := todo_mutation_invalidates_owner_cache
    [⟨5, 1, "a", "", false, 1, "", none, none, [], 0⟩]
    ⟨⟨true, [⟨.todos 1 "p1", .payload "x", 900⟩, ⟨.userStats 1, .payload "s", 900⟩,
      ⟨.todos 2 "p1", .payload "y", 900⟩]⟩, []⟩
    ⟨5, 1, "a", "", false, 1, "", none, none, [], 0⟩
    { completed := some true } 100 rfl (by decide)
  exact ⟨h.2.2.2.1 (.todos 1 "p1") 100 (by decide),
    h.2.2.2.1 (.userStats 1) 100 (by decide),
    (h.2.2.2.2.2 2 (.todos 2 "p1") 100 (by decide) (by decide)).trans (by decide)⟩

end Mainnode
